import Mathlib

/-!
Shallow embedding of the two synthetic sleep-diary generators of this
repository: natale2009_based_synthetic_data_generator.py (the basic
variant) and natale2009_advanced_generator.py (the advanced variant).

Modelling conventions.  Python floats are modelled as rationals; the
np.nan that the source stores for an undefined sleep efficiency is
modelled by Option (none = NaN).  The seeded numpy random stream is
modelled by a function stream : Nat -> Rat giving the standardized
variate returned by the n-th np.random distribution call of the run;
the location/scale transformations written in the source are applied
explicitly on top of those variates.  Raised Python exceptions are
modelled with Except.
-/

/-- The possible shapes of a value handed to convert_time_to_minutes
(advanced generator lines 79-102; the basic variant, lines 55-78, is
textually identical).  timestamp covers pd.Timestamp and datetime
(hour, minute, second components), timeOfDay covers datetime.time,
duration covers datetime.timedelta (carrying its total seconds),
timeStr is a parseable time string represented by the clock time it
parses to, numeric covers int and float, and other stands for a value
of any unsupported type, carrying the printed type name. -/
inductive TimeVal where
  | timestamp (hour minute second : ℕ)
  | timeOfDay (hour minute second : ℕ)
  | duration (total_seconds : ℚ)
  | timeStr (hour minute second : ℕ)
  | numeric (val : ℚ)
  | other (tyName : String)
deriving DecidableEq

/-- Shared tail of convert_time_to_minutes: when allow_negative is set and
the clock value in minutes is at least 1080 (6 pm), reinterpret it as the
evening before by subtracting 1440. -/
def eveningWrap (allow_negative : Bool) (mins : ℕ) : Except String ℚ :=
  if allow_negative = true ∧ 1080 ≤ mins then Except.ok ((mins : ℚ) - 1440)
  else Except.ok (mins : ℚ)

/-- convert_time_to_minutes from the source.  Timestamp, time-of-day and
string inputs compute hour * 60 + minute and fall through to the
evening-wraparound check; timedelta returns total seconds divided by 60
immediately; numeric values are returned unchanged immediately; any other
type raises a TypeError. -/
def convert_time_to_minutes (val : TimeVal) (allow_negative : Bool) :
    Except String ℚ :=
  match val with
  | TimeVal.timestamp h m _ => eveningWrap allow_negative (h * 60 + m)
  | TimeVal.timeOfDay h m _ => eveningWrap allow_negative (h * 60 + m)
  | TimeVal.duration s => Except.ok (s / 60)
  | TimeVal.timeStr h m _ => eveningWrap allow_negative (h * 60 + m)
  | TimeVal.numeric v => Except.ok v
  | TimeVal.other ty => Except.error ("Unexpected type: " ++ ty)

/-- Gamma moment matching exactly as written in the source (advanced
generator lines 147-148 and 154-155; basic variant lines 114-115 and
121-122): shape = (mean / sd) ^ 2 and scale = sd ^ 2 / mean, computed with
no validity guard on mean or sd. -/
def gamma_shape_scale (mean sd : ℚ) : ℚ × ℚ :=
  ((mean / sd) ^ 2, sd ^ 2 / mean)

/-- Python float modulo as used by the clock formatter: the remainder has
the sign of the divisor, so for the positive divisor 1440 the result lies
in the interval from 0 up to (excluding) 1440. -/
def pymod (x y : ℚ) : ℚ := x - y * ((Int.floor (x / y) : ℤ) : ℚ)

/-- Zero padding of a two-digit clock component. -/
def pad2 (n : ℕ) : String := if n < 10 then "0" ++ toString n else toString n

/-- The clock formatter applied per minute-valued field (advanced
generator lines 213-214, reused verbatim inside build_sleep_json at lines
219-220; basic variant lines 150-151): fold the minute value into a day
with Python modulo 24 * 60 and render the result, truncated to whole
minutes, as a zero-padded 24-hour HH:MM string. -/
def minutes_to_clock (x : ℚ) : String :=
  let m := (Int.floor (pymod x (24 * 60))).toNat
  pad2 (m / 60) ++ ":" ++ pad2 (m % 60)

/-- Python round on a float: round half to even. -/
def pyRound (q : ℚ) : ℤ :=
  if q - Int.floor q < 1 / 2 then Int.floor q
  else if 1 / 2 < q - Int.floor q then Int.floor q + 1
  else if Int.floor q % 2 = 0 then Int.floor q else Int.floor q + 1

/-- Python round to one decimal place (ties to even), as applied to the
sleep-efficiency total. -/
def round1 (q : ℚ) : ℚ := ((pyRound (q * 10) : ℤ) : ℚ) / 10

/-- Python int applied to a float: truncation toward zero. -/
def pyInt (q : ℚ) : ℤ := if 0 ≤ q then Int.floor q else Int.ceil q

/-- np.clip with scalar bounds: the minimum of hi and the maximum of the
value and lo. -/
def clip (a lo hi : ℚ) : ℚ := min hi (max a lo)

/-- The normalized parameter table handed to get_params: mean and SD, in
minutes, for the four core variables Light Off, Sleep End, SOL and WASO
(read once from the Excel resource and immutable for the run). -/
structure GenParams where
  mu_loff : ℚ
  sd_loff : ℚ
  mu_send : ℚ
  sd_send : ℚ
  mu_sol : ℚ
  sd_sol : ℚ
  mu_waso : ℚ
  sd_waso : ℚ
deriving DecidableEq

/-- One row of the advanced generator (one record dict, advanced lines
126-208).  pid and day_index keep the raw loop counters; the source
renders pid as the Participant code Mock_ with three digits and day_index
as a calendar date starting 2024-03-01 in the Day column. -/
structure DiaryRecord where
  pid : ℕ
  Participant : String
  Email : String
  day_index : ℕ
  Lights_Off : ℚ
  Sleep_End : ℚ
  SOL : ℚ
  WASO : ℚ
  Out_of_Bed : ℚ
  TIB : ℚ
  TWT : ℚ
  TST : ℚ
  SE : Option ℚ
  Midpoint : ℚ
  SQ : ℤ
  Rested : ℤ
  Physical_Activity_Minutes : ℤ
  Caffeine : ℤ
  Medication : Option ℤ
  time_to_calm_down_and_relax : ℤ
deriving DecidableEq

/-- Three-digit zero padding used for participant codes. -/
def pad3 (n : ℕ) : String :=
  if n < 10 then "00" ++ toString n
  else if n < 100 then "0" ++ toString n
  else toString n

/-- One iteration of the inner loop of the advanced generator
(generate_time_series_sleepdata, lines 126-208).  stream n is the
standardized variate of the n-th np.random call: a standard normal for
the normal calls (so the source draw normal(mu, sd) is mu + sd * z), a
unit-scale gamma variate of the moment-matched shape for the gamma calls
(so the draw is scale * g), and the raw Poisson draw for the Poisson
call.  Each record consumes ten consecutive draws in the fixed source
order. -/
def mkDiaryRecord (p : GenParams) (stream : ℕ → ℚ) (idx pid day : ℕ) :
    DiaryRecord :=
  let lights_off_min := p.mu_loff + p.sd_loff * stream idx
  let sleep_end_min := p.mu_send + p.sd_send * stream (idx + 1)
  let sol := (gamma_shape_scale p.mu_sol p.sd_sol).2 * stream (idx + 2)
  let waso := (gamma_shape_scale p.mu_waso p.sd_waso).2 * stream (idx + 3)
  let wait_time := clip (15 + 10 * stream (idx + 4)) 5 30
  let out_of_bed_min := sleep_end_min + wait_time
  let tib := out_of_bed_min - lights_off_min
  let twt := sol + waso
  let tst := tib - (sol + waso)
  let se := if 0 < tib then some (tst / tib * 100) else none
  let midpoint := (lights_off_min + out_of_bed_min) / 2
  { pid := pid,
    Participant := "Mock_" ++ pad3 pid,
    Email := "mock_" ++ pad3 pid ++ "@example.test",
    day_index := day,
    Lights_Off := lights_off_min,
    Sleep_End := sleep_end_min,
    SOL := sol,
    WASO := waso,
    Out_of_Bed := out_of_bed_min,
    TIB := tib,
    TWT := twt,
    TST := tst,
    SE := se,
    Midpoint := midpoint,
    SQ := pyInt (clip ((pyRound (7 + 3 / 2 * stream (idx + 5)) : ℤ) : ℚ) 1 10),
    Rested := pyInt (clip ((pyRound (13 / 2 + 9 / 5 * stream (idx + 6)) : ℤ) : ℚ) 1 10),
    Physical_Activity_Minutes := pyInt (clip (50 + 20 * stream (idx + 7)) 0 180),
    Caffeine := pyInt (clip (stream (idx + 8)) 0 6),
    Medication := none,
    time_to_calm_down_and_relax := pyInt (clip (45 + 15 * stream (idx + 9)) 0 120) }

/-- One row of the basic generator (one record dict, basic variant lines
97-143): no email, no habit variables, a plain day counter, no TWT
column, and the midpoint taken from lights off and sleep end. -/
structure BasicRecord where
  pid : ℕ
  Code : String
  Day : ℕ
  Lights_Off : ℚ
  Sleep_End : ℚ
  SOL : ℚ
  WASO : ℚ
  Out_of_Bed : ℚ
  TIB : ℚ
  TST : ℚ
  SE : Option ℚ
  Midpoint : ℚ
deriving DecidableEq

/-- One iteration of the inner loop of the basic generator
(generate_time_series_sleepdata of the basic variant, lines 97-145).
Each record consumes five consecutive draws, in the same order and with
the same stream conventions as the advanced variant. -/
def mkBasicRecord (p : GenParams) (stream : ℕ → ℚ) (idx pid day : ℕ) :
    BasicRecord :=
  let lights_off_min := p.mu_loff + p.sd_loff * stream idx
  let sleep_end_min := p.mu_send + p.sd_send * stream (idx + 1)
  let sol := (gamma_shape_scale p.mu_sol p.sd_sol).2 * stream (idx + 2)
  let waso := (gamma_shape_scale p.mu_waso p.sd_waso).2 * stream (idx + 3)
  let wait_time := clip (15 + 10 * stream (idx + 4)) 5 30
  let out_of_bed_min := sleep_end_min + wait_time
  let tib := out_of_bed_min - lights_off_min
  let tst := tib - (sol + waso)
  let se := if 0 < tib then some (tst / tib * 100) else none
  let midpoint := (lights_off_min + sleep_end_min) / 2
  { pid := pid,
    Code := "Mock_" ++ pad3 pid,
    Day := day,
    Lights_Off := lights_off_min,
    Sleep_End := sleep_end_min,
    SOL := sol,
    WASO := waso,
    Out_of_Bed := out_of_bed_min,
    TIB := tib,
    TST := tst,
    SE := se,
    Midpoint := midpoint }

/-- Concrete zero parameter table used by the closed witness records. -/
def zeroParams : GenParams := ⟨0, 0, 0, 0, 0, 0, 0, 0⟩

/-- Concrete constant draw stream used by the closed witness records. -/
def zeroStream : ℕ → ℚ := fun _ => 0

/-- The totals sub-object of the JSON sleep block (advanced generator
lines 227-234). -/
structure SleepTotals where
  sl : ℤ
  wans : ℤ
  twt : ℤ
  tib : ℤ
  tst : ℤ
  se : Option ℚ
deriving DecidableEq

/-- The JSON sleep block assembled per row (advanced generator lines
218-236): start and end render the Lights_Off and Sleep_End minute values
as clock strings after Python modulo 1440, and the totals are the rounded
numeric fields. -/
structure SleepBlock where
  start : String
  end_time : String
  totals : SleepTotals
deriving DecidableEq

/-- build_sleep_json from the advanced generator (lines 218-236).  The
start and end expressions are the same formatter as the clock columns;
the totals apply Python int round to SOL, WASO, SOL + WASO, TIB and TST
and one-decimal rounding to SE (NaN stays NaN). -/
def build_sleep_json (row : DiaryRecord) : SleepBlock :=
  { start := minutes_to_clock row.Lights_Off,
    end_time := minutes_to_clock row.Sleep_End,
    totals :=
      { sl := pyRound row.SOL,
        wans := pyRound row.WASO,
        twt := pyRound (row.SOL + row.WASO),
        tib := pyRound row.TIB,
        tst := pyRound row.TST,
        se := Option.map round1 row.SE } }

/-- The inner day loop of the advanced generator (for day in
range(1, days + 1)): one record per day, the draw position advancing by
the ten draws each record consumes. -/
def genDays (p : GenParams) (stream : ℕ → ℚ) (pid : ℕ) :
    ℕ → ℕ → ℕ → List DiaryRecord
  | 0, _, _ => []
  | n + 1, day, idx =>
      mkDiaryRecord p stream idx pid day
        :: genDays p stream pid n (day + 1) (idx + 10)

/-- The outer participant loop of the advanced generator (for pid in
range(1, n_participants + 1)): days run inner-most, and the single draw
stream continues across participants. -/
def genParticipants (p : GenParams) (stream : ℕ → ℚ) (D : ℕ) :
    ℕ → ℕ → ℕ → List DiaryRecord
  | 0, _, _ => []
  | n + 1, pid, idx =>
      genDays p stream pid D 1 idx
        ++ genParticipants p stream D n (pid + 1) (idx + 10 * D)

/-- The accumulated records table of the advanced generator
(generate_time_series_sleepdata, lines 123-210): participants outer-most
from 1, days inner-most from 1, one seeded draw stream consumed in
order. -/
def generate_time_series_sleepdata (p : GenParams) (stream : ℕ → ℚ)
    (n_participants days : ℕ) : List DiaryRecord :=
  genParticipants p stream days n_participants 1 0

/-- The inner day loop of the basic generator: five draws per record. -/
def genBasicDays (p : GenParams) (stream : ℕ → ℚ) (pid : ℕ) :
    ℕ → ℕ → ℕ → List BasicRecord
  | 0, _, _ => []
  | n + 1, day, idx =>
      mkBasicRecord p stream idx pid day
        :: genBasicDays p stream pid n (day + 1) (idx + 5)

/-- The outer participant loop of the basic generator. -/
def genBasicParticipants (p : GenParams) (stream : ℕ → ℚ) (D : ℕ) :
    ℕ → ℕ → ℕ → List BasicRecord
  | 0, _, _ => []
  | n + 1, pid, idx =>
      genBasicDays p stream pid D 1 idx
        ++ genBasicParticipants p stream D n (pid + 1) (idx + 5 * D)

/-- The accumulated records table of the basic generator
(generate_time_series_sleepdata of the basic variant, lines 95-147). -/
def generate_time_series_sleepdata_basic (p : GenParams) (stream : ℕ → ℚ)
    (n_participants days : ℕ) : List BasicRecord :=
  genBasicParticipants p stream days n_participants 1 0

/-- One row of the second output view (advanced generator lines 239-250):
identity and habit fields plus the serialized sleep block, with every raw
numeric and clock-formatted sleep column dropped. -/
structure JsonRow where
  pid : ℕ
  Participant : String
  Email : String
  day_index : ℕ
  SQ : ℤ
  Rested : ℤ
  Physical_Activity_Minutes : ℤ
  Caffeine : ℤ
  Medication : Option ℤ
  time_to_calm_down_and_relax : ℤ
  Sleep_JSON : SleepBlock
deriving DecidableEq

/-- Projection of a full record onto the block-view row. -/
def toJsonRow (r : DiaryRecord) : JsonRow :=
  { pid := r.pid,
    Participant := r.Participant,
    Email := r.Email,
    day_index := r.day_index,
    SQ := r.SQ,
    Rested := r.Rested,
    Physical_Activity_Minutes := r.Physical_Activity_Minutes,
    Caffeine := r.Caffeine,
    Medication := r.Medication,
    time_to_calm_down_and_relax := r.time_to_calm_down_and_relax,
    Sleep_JSON := build_sleep_json r }

/-- The second output view of the advanced generator: the same rows as
the main table, carrying the serialized sleep block. -/
def jsonblock_view (p : GenParams) (stream : ℕ → ℚ)
    (n_participants days : ℕ) : List JsonRow :=
  (generate_time_series_sleepdata p stream n_participants days).map toJsonRow

/-- Column order of the main dataframe of the advanced generator: the
record dict keys in insertion order (lines 126-204) followed by the three
appended clock columns (lines 213-214). -/
def df_columns : List String :=
  ["Participant", "Email", "Day", "Lights_Off", "Sleep_End", "SOL", "WASO",
   "Out_of_Bed", "TIB", "TWT", "TST", "SE", "Midpoint", "SQ", "Rested",
   "Physical_Activity_Minutes", "Caffeine", "Medication",
   "time to calm down and relax",
   "Lights_Off_Clock", "Sleep_End_Clock", "Midpoint_Clock"]

/-- The sleep columns dropped from the block view (advanced generator
lines 246-247). -/
def sleep_vars : List String :=
  ["Out_of_Bed", "Midpoint", "Lights_Off_Clock", "Sleep_End_Clock",
   "Midpoint_Clock", "Lights_Off", "Sleep_End", "SOL", "WASO", "TWT",
   "TIB", "TST", "SE"]

/-- Columns of the dataframe copy carrying the Sleep_JSON column
(advanced generator lines 239-240). -/
def df_with_json_columns : List String := df_columns ++ ["Sleep_JSON"]

/-- Columns after dropping the sleep variables (line 248). -/
def df_json_only_columns : List String :=
  df_with_json_columns.filter (fun c => !(sleep_vars.contains c))

/-- Final column order of the block view: everything but Sleep_JSON, then
Sleep_JSON last (lines 249-250). -/
def cols_order : List String :=
  df_json_only_columns.filter (fun c => c != "Sleep_JSON") ++ ["Sleep_JSON"]

/-- C2: the code does not fail fast on non-positive Gamma parameters.
With mean 30 and sd -10 (a non-positive SD) it silently computes
shape 9 and scale 10/3 and proceeds to draw, instead of raising an
invalid-distribution-parameters error as the spec requires. -/
theorem C2_gamma_no_guard :
    gamma_shape_scale 30 (-10) = (9, 10 / 3) ∧ ¬ (0 : ℚ) < -10 := by
  constructor
  · norm_num [gamma_shape_scale]
  · norm_num

/-- C3 counterexample: an already-numeric input of 1410 minutes (the
minute value of 23:30) with the evening flag set is returned unchanged,
so the claimed reinterpretation to 1410 - 1440 = -30 does not happen for
the numeric input shape. -/
theorem C3_numeric_no_wraparound :
    convert_time_to_minutes (TimeVal.numeric 1410) true = Except.ok 1410 ∧
    (1410 : ℚ) ≠ 1410 - 1440 := by
  constructor
  · rfl
  · norm_num

/-- C3 (amended): with the evening flag set, the at-least-1080
reinterpretation applies to timestamp, time-of-day and parseable-string
inputs (so 23:30 normalizes to -30 and 06:30 to 390), while duration and
numeric inputs return early, unchanged, with no reinterpretation. -/
theorem C3_evening_wraparound (h m s : ℕ) (q : ℚ) :
    (1080 ≤ h * 60 + m →
      convert_time_to_minutes (TimeVal.timestamp h m s) true
          = Except.ok (((h * 60 + m : ℕ) : ℚ) - 1440) ∧
      convert_time_to_minutes (TimeVal.timeOfDay h m s) true
          = Except.ok (((h * 60 + m : ℕ) : ℚ) - 1440) ∧
      convert_time_to_minutes (TimeVal.timeStr h m s) true
          = Except.ok (((h * 60 + m : ℕ) : ℚ) - 1440)) ∧
    (h * 60 + m < 1080 →
      convert_time_to_minutes (TimeVal.timeOfDay h m s) true
          = Except.ok ((h * 60 + m : ℕ) : ℚ)) ∧
    convert_time_to_minutes (TimeVal.timeOfDay 23 30 0) true
        = Except.ok (-30) ∧
    convert_time_to_minutes (TimeVal.timeOfDay 6 30 0) true
        = Except.ok 390 ∧
    convert_time_to_minutes (TimeVal.numeric q) true = Except.ok q ∧
    convert_time_to_minutes (TimeVal.duration q) true = Except.ok (q / 60) := by
  refine ⟨?_, ?_, ?_, ?_, rfl, rfl⟩
  · intro hge
    refine ⟨?_, ?_, ?_⟩ <;>
      simp [convert_time_to_minutes, eveningWrap, hge]
  · intro hlt
    simp [convert_time_to_minutes, eveningWrap, Nat.not_le.mpr hlt]
  · show eveningWrap true (23 * 60 + 30) = Except.ok (-30)
    rw [eveningWrap]
    norm_num
  · show eveningWrap true (6 * 60 + 30) = Except.ok 390
    rw [eveningWrap]
    norm_num

/-- C3 witness: the amended wraparound at concrete inputs, via the amended
theorem: a 23:30:45 timestamp normalizes to -30 and a 06:30 time of day to
390 under the evening flag. -/
theorem C3_evening_wraparound_witness :
    convert_time_to_minutes (TimeVal.timestamp 23 30 45) true
        = Except.ok (-30) ∧
    convert_time_to_minutes (TimeVal.timeOfDay 6 30 0) true
        = Except.ok 390 := by
  have h := C3_evening_wraparound 23 30 45 0
  refine ⟨?_, h.2.2.2.1⟩
  have h1 := (h.1 (by norm_num)).1
  norm_num at h1
  exact h1

/-- C4: conversion fails with a type-mismatch error exactly on inputs of
an unsupported type, and returns a value on every accepted shape. -/
theorem C4_type_mismatch (v : TimeVal) (flag : Bool) :
    ((∃ e, convert_time_to_minutes v flag = Except.error e) ↔
      ∃ ty, v = TimeVal.other ty) ∧
    ((∃ q, convert_time_to_minutes v flag = Except.ok q) ↔
      ∀ ty, v ≠ TimeVal.other ty) := by
  cases v <;>
    simp only [convert_time_to_minutes, eveningWrap] <;>
    (constructor <;> constructor <;> simp_all) <;> split_ifs <;> simp_all

/-- C4 witness: an unsupported type raises the type-mismatch error, an
accepted numeric input returns a value, both via the C4 theorem at
concrete inputs. -/
theorem C4_type_mismatch_witness :
    (∃ e, convert_time_to_minutes (TimeVal.other "list") false
        = Except.error e) ∧
    (∃ q, convert_time_to_minutes (TimeVal.numeric 5) false
        = Except.ok q) := by
  constructor
  · exact (C4_type_mismatch (TimeVal.other "list") false).1.mpr ⟨"list", rfl⟩
  · exact (C4_type_mismatch (TimeVal.numeric 5) false).2.mpr
      (fun ty hty => by cases hty)

/-- C10: for timestamp, time-of-day and string inputs, normalization is
computed from the hour and minute components only (hour * 60 + minute fed
to the shared wraparound tail), so seconds are discarded and inputs
differing only in seconds normalize identically; a duration instead keeps
fractional minutes as total seconds divided by 60. -/
theorem C10_subminute_precision (h m s1 s2 : ℕ) (secs : ℚ) (flag : Bool) :
    convert_time_to_minutes (TimeVal.timestamp h m s1) flag
        = eveningWrap flag (h * 60 + m) ∧
    convert_time_to_minutes (TimeVal.timeOfDay h m s1) flag
        = eveningWrap flag (h * 60 + m) ∧
    convert_time_to_minutes (TimeVal.timeStr h m s1) flag
        = eveningWrap flag (h * 60 + m) ∧
    convert_time_to_minutes (TimeVal.timestamp h m s1) flag
        = convert_time_to_minutes (TimeVal.timestamp h m s2) flag ∧
    convert_time_to_minutes (TimeVal.timeOfDay h m s1) flag
        = convert_time_to_minutes (TimeVal.timeOfDay h m s2) flag ∧
    convert_time_to_minutes (TimeVal.timeStr h m s1) flag
        = convert_time_to_minutes (TimeVal.timeStr h m s2) flag ∧
    convert_time_to_minutes (TimeVal.duration secs) flag
        = Except.ok (secs / 60) :=
  ⟨rfl, rfl, rfl, rfl, rfl, rfl, rfl⟩

theorem pymod_1440_fract (x : ℚ) :
    pymod x 1440 = 1440 * Int.fract (x / 1440) := by
  have h : (1440 : ℚ) * (x / 1440) = x := by
    field_simp
  rw [pymod, Int.fract, mul_sub, h]

theorem pymod_1440_nonneg (x : ℚ) : 0 ≤ pymod x 1440 := by
  rw [pymod_1440_fract]
  exact mul_nonneg (by norm_num) (Int.fract_nonneg (x / 1440))

theorem pymod_1440_lt (x : ℚ) : pymod x 1440 < 1440 := by
  rw [pymod_1440_fract]
  calc 1440 * Int.fract (x / 1440) < 1440 * 1 := by
        exact (mul_lt_mul_left (by norm_num)).mpr (Int.fract_lt_one (x / 1440))
    _ = 1440 := by norm_num

theorem pymod_eq_self (p : ℚ) (h0 : 0 ≤ p) (h1 : p < 1440) :
    pymod p 1440 = p := by
  have hf : Int.floor (p / 1440) = 0 := by
    rw [Int.floor_eq_zero_iff, Set.mem_Ico]
    exact ⟨div_nonneg h0 (by norm_num), (div_lt_one (by norm_num)).mpr h1⟩
  rw [pymod, hf]
  norm_num

theorem pymod_idem (x : ℚ) : pymod (pymod x 1440) 1440 = pymod x 1440 :=
  pymod_eq_self (pymod x 1440) (pymod_1440_nonneg x) (pymod_1440_lt x)

theorem pymod_sub_1440 (x : ℚ) : pymod (x - 1440) 1440 = pymod x 1440 := by
  have hdiv : (x - 1440) / 1440 = x / 1440 - 1 := by
    field_simp
  have hfl : Int.floor (x / 1440 - 1) = Int.floor (x / 1440) - 1 := by
    exact_mod_cast Int.floor_sub_int (x / 1440) 1
  rw [pymod, pymod, hdiv, hfl]
  push_cast
  ring

theorem minutes_to_clock_pymod (x : ℚ) :
    minutes_to_clock (pymod x 1440) = minutes_to_clock x := by
  have h : (24 : ℚ) * 60 = 1440 := by norm_num
  rw [minutes_to_clock, minutes_to_clock, h, pymod_idem]

theorem minutes_to_clock_sub_1440 (x : ℚ) :
    minutes_to_clock (x - 1440) = minutes_to_clock x := by
  have h : (24 : ℚ) * 60 = 1440 := by norm_num
  rw [minutes_to_clock, minutes_to_clock, h, pymod_sub_1440]

/-- C5: clock formatting is invariant under whole-day shifts: formatting m
agrees with formatting m modulo 1440 (Python modulo, so negative previous
evening values fold onto the range 0 to 1439), and formatting m - 1440
agrees with formatting m. -/
theorem C5_clock_mod_invariance (m : ℚ) :
    minutes_to_clock m = minutes_to_clock (pymod m 1440) ∧
    minutes_to_clock (m - 1440) = minutes_to_clock m :=
  ⟨(minutes_to_clock_pymod m).symm, minutes_to_clock_sub_1440 m⟩

theorem mkDiaryRecord_SE (p : GenParams) (stream : ℕ → ℚ)
    (idx pid day : ℕ) :
    (mkDiaryRecord p stream idx pid day).SE
      = if 0 < (mkDiaryRecord p stream idx pid day).TIB
        then some ((mkDiaryRecord p stream idx pid day).TST
            / (mkDiaryRecord p stream idx pid day).TIB * 100)
        else none := rfl

theorem mkBasicRecord_SE (p : GenParams) (stream : ℕ → ℚ)
    (idx pid day : ℕ) :
    (mkBasicRecord p stream idx pid day).SE
      = if 0 < (mkBasicRecord p stream idx pid day).TIB
        then some ((mkBasicRecord p stream idx pid day).TST
            / (mkBasicRecord p stream idx pid day).TIB * 100)
        else none := rfl

/-- C1: the derived-metric chain holds exactly for every generated
record of either variant: TIB is Out_of_Bed minus Lights_Off, TWT is
SOL plus WASO (the basic variant stores no TWT column, its TST uses the
sum directly), TST is TIB minus TWT, and SE is 100 * TST / TIB exactly
when TIB is positive and NaN (none) exactly when TIB is non-positive. -/
theorem C1_invariant_chain (p : GenParams) (stream : ℕ → ℚ)
    (idx pid day : ℕ) :
    ((mkDiaryRecord p stream idx pid day).TIB
        = (mkDiaryRecord p stream idx pid day).Out_of_Bed
          - (mkDiaryRecord p stream idx pid day).Lights_Off) ∧
    ((mkDiaryRecord p stream idx pid day).TWT
        = (mkDiaryRecord p stream idx pid day).SOL
          + (mkDiaryRecord p stream idx pid day).WASO) ∧
    ((mkDiaryRecord p stream idx pid day).TST
        = (mkDiaryRecord p stream idx pid day).TIB
          - (mkDiaryRecord p stream idx pid day).TWT) ∧
    (0 < (mkDiaryRecord p stream idx pid day).TIB →
      (mkDiaryRecord p stream idx pid day).SE
        = some (100 * (mkDiaryRecord p stream idx pid day).TST
            / (mkDiaryRecord p stream idx pid day).TIB)) ∧
    ((mkDiaryRecord p stream idx pid day).SE = none ↔
      (mkDiaryRecord p stream idx pid day).TIB ≤ 0) ∧
    ((mkBasicRecord p stream idx pid day).TIB
        = (mkBasicRecord p stream idx pid day).Out_of_Bed
          - (mkBasicRecord p stream idx pid day).Lights_Off) ∧
    ((mkBasicRecord p stream idx pid day).TST
        = (mkBasicRecord p stream idx pid day).TIB
          - ((mkBasicRecord p stream idx pid day).SOL
            + (mkBasicRecord p stream idx pid day).WASO)) ∧
    (0 < (mkBasicRecord p stream idx pid day).TIB →
      (mkBasicRecord p stream idx pid day).SE
        = some (100 * (mkBasicRecord p stream idx pid day).TST
            / (mkBasicRecord p stream idx pid day).TIB)) ∧
    ((mkBasicRecord p stream idx pid day).SE = none ↔
      (mkBasicRecord p stream idx pid day).TIB ≤ 0) := by
  refine ⟨rfl, rfl, rfl, ?_, ?_, rfl, rfl, ?_, ?_⟩
  · intro htib
    rw [mkDiaryRecord_SE, if_pos htib, Option.some.injEq]
    ring
  · rw [mkDiaryRecord_SE]
    split_ifs with htib
    · exact iff_of_false (by simp) (not_le.mpr htib)
    · exact iff_of_true rfl (not_lt.mp htib)
  · intro htib
    rw [mkBasicRecord_SE, if_pos htib, Option.some.injEq]
    ring
  · rw [mkBasicRecord_SE]
    split_ifs with htib
    · exact iff_of_false (by simp) (not_le.mpr htib)
    · exact iff_of_true rfl (not_lt.mp htib)

/-- C1 witness: the constant-zero stream makes TIB equal 15, so sleep
efficiency is defined and equals 100 * TST / TIB, via the chain theorem
at that concrete record. -/
theorem C1_invariant_chain_witness :
    0 < (mkDiaryRecord zeroParams zeroStream 0 1 1).TIB ∧
    (mkDiaryRecord zeroParams zeroStream 0 1 1).SE
      = some (100 * (mkDiaryRecord zeroParams zeroStream 0 1 1).TST
          / (mkDiaryRecord zeroParams zeroStream 0 1 1).TIB) := by
  have htib : 0 < (mkDiaryRecord zeroParams zeroStream 0 1 1).TIB := by
    show (0 : ℚ) < (0 + 0 * 0 + clip (15 + 10 * 0) 5 30) - (0 + 0 * 0)
    rw [clip]
    norm_num
  exact ⟨htib, (C1_invariant_chain zeroParams zeroStream 0 1 1).2.2.2.1 htib⟩

/-- C6: for every record, the serialized sleep block agrees with the
correspondingly rounded numeric fields (sl with round SOL, wans with
round WASO, twt with round of SOL + WASO, tib with round TIB, tst with
round TST, se with SE rounded to one decimal), and start and end are the
clock strings of Lights_Off and Sleep_End after Python modulo 1440. -/
theorem C6_sleep_block_totals (row : DiaryRecord) :
    (build_sleep_json row).totals.sl = pyRound row.SOL ∧
    (build_sleep_json row).totals.wans = pyRound row.WASO ∧
    (build_sleep_json row).totals.twt = pyRound (row.SOL + row.WASO) ∧
    (build_sleep_json row).totals.tib = pyRound row.TIB ∧
    (build_sleep_json row).totals.tst = pyRound row.TST ∧
    (build_sleep_json row).totals.se = Option.map round1 row.SE ∧
    (build_sleep_json row).start
        = minutes_to_clock (pymod row.Lights_Off 1440) ∧
    (build_sleep_json row).end_time
        = minutes_to_clock (pymod row.Sleep_End 1440) :=
  ⟨rfl, rfl, rfl, rfl, rfl, rfl,
    (minutes_to_clock_pymod row.Lights_Off).symm,
    (minutes_to_clock_pymod row.Sleep_End).symm⟩

/-- C9: the basic generator takes the midpoint of Lights_Off and
Sleep_End while the advanced generator takes the midpoint of Lights_Off
and Out_of_Bed; on the same sampled primitives the two differ by exactly
half the wait time, so they diverge exactly when the wait time after
waking is non-zero. -/
theorem C9_midpoint_divergence (p : GenParams) (stream : ℕ → ℚ)
    (idx pid day : ℕ) :
    ((mkBasicRecord p stream idx pid day).Midpoint
        = ((mkBasicRecord p stream idx pid day).Lights_Off
          + (mkBasicRecord p stream idx pid day).Sleep_End) / 2) ∧
    ((mkDiaryRecord p stream idx pid day).Midpoint
        = ((mkDiaryRecord p stream idx pid day).Lights_Off
          + (mkDiaryRecord p stream idx pid day).Out_of_Bed) / 2) ∧
    ((mkDiaryRecord p stream idx pid day).Midpoint
        - (mkBasicRecord p stream idx pid day).Midpoint
        = clip (15 + 10 * stream (idx + 4)) 5 30 / 2) ∧
    ((mkDiaryRecord p stream idx pid day).Midpoint
        ≠ (mkBasicRecord p stream idx pid day).Midpoint ↔
      clip (15 + 10 * stream (idx + 4)) 5 30 ≠ 0) := by
  have hdiff : (mkDiaryRecord p stream idx pid day).Midpoint
      - (mkBasicRecord p stream idx pid day).Midpoint
      = clip (15 + 10 * stream (idx + 4)) 5 30 / 2 := by
    show ((p.mu_loff + p.sd_loff * stream idx)
        + ((p.mu_send + p.sd_send * stream (idx + 1))
          + clip (15 + 10 * stream (idx + 4)) 5 30)) / 2
      - ((p.mu_loff + p.sd_loff * stream idx)
        + (p.mu_send + p.sd_send * stream (idx + 1))) / 2
      = clip (15 + 10 * stream (idx + 4)) 5 30 / 2
    ring
  refine ⟨rfl, rfl, hdiff, not_congr ?_⟩
  rw [← sub_eq_zero, hdiff, div_eq_zero_iff]
  norm_num

/-- C9 witness: on the constant-zero stream the wait time is 15, so the
two midpoint definitions disagree, via the divergence theorem. -/
theorem C9_midpoint_divergence_witness :
    (mkDiaryRecord zeroParams zeroStream 0 1 1).Midpoint
      ≠ (mkBasicRecord zeroParams zeroStream 0 1 1).Midpoint := by
  refine ((C9_midpoint_divergence zeroParams zeroStream 0 1 1).2.2.2).mpr ?_
  show clip (15 + 10 * 0) 5 30 ≠ 0
  rw [clip]
  norm_num

theorem genDays_length (p : GenParams) (stream : ℕ → ℚ) (pid : ℕ) :
    ∀ (n day idx : ℕ), (genDays p stream pid n day idx).length = n := by
  intro n
  induction n with
  | zero => intro day idx; rfl
  | succ n ih =>
      intro day idx
      simp only [genDays, List.length_cons, ih]

theorem genDays_getElem (p : GenParams) (stream : ℕ → ℚ) (pid : ℕ) :
    ∀ (n j day idx : ℕ), j < n →
      (genDays p stream pid n day idx)[j]?
        = some (mkDiaryRecord p stream (idx + 10 * j) pid (day + j)) := by
  intro n
  induction n with
  | zero => intro j day idx hj; exact absurd hj (Nat.not_lt_zero j)
  | succ n ih =>
      intro j day idx hj
      cases j with
      | zero => simp [genDays]
      | succ j =>
          have ihj := ih j (day + 1) (idx + 10) (Nat.lt_of_succ_lt_succ hj)
          have e1 : idx + 10 + 10 * j = idx + 10 * (j + 1) := by ring
          have e2 : day + 1 + j = day + (j + 1) := by ring
          rw [e1, e2] at ihj
          simpa [genDays] using ihj

theorem genParticipants_length (p : GenParams) (stream : ℕ → ℚ) (D : ℕ) :
    ∀ (n pid idx : ℕ),
      (genParticipants p stream D n pid idx).length = n * D := by
  intro n
  induction n with
  | zero => intro pid idx; simp [genParticipants]
  | succ n ih =>
      intro pid idx
      simp only [genParticipants, List.length_append, genDays_length, ih,
        Nat.succ_mul]
      omega

theorem genParticipants_getElem (p : GenParams) (stream : ℕ → ℚ) (D : ℕ) :
    ∀ (n pid idx i : ℕ), i < n * D →
      (genParticipants p stream D n pid idx)[i]?
        = some (mkDiaryRecord p stream (idx + 10 * i) (pid + i / D)
            (1 + i % D)) := by
  intro n
  induction n with
  | zero => intro pid idx i hi; simp at hi
  | succ n ih =>
      intro pid idx i hi
      have hD0 : 0 < D := by
        rcases Nat.eq_zero_or_pos D with h0 | h0
        · subst h0; simp at hi
        · exact h0
      have hlen : (genDays p stream pid D 1 idx).length = D :=
        genDays_length p stream pid D 1 idx
      simp only [genParticipants]
      by_cases hiD : i < D
      · rw [List.getElem?_append, hlen, if_pos hiD,
          genDays_getElem p stream pid D i 1 idx hiD,
          Nat.div_eq_of_lt hiD, Nat.mod_eq_of_lt hiD]
        simp
      · have hge : D ≤ i := Nat.not_lt.mp hiD
        rw [List.getElem?_append_right (by rw [hlen]; exact hge), hlen]
        have hi2 : i - D < n * D := by
          rw [tsub_lt_iff_right hge]
          rw [Nat.succ_mul] at hi
          exact hi
        rw [ih (pid + 1) (idx + 10 * D) (i - D) hi2,
          Nat.div_eq_sub_div hD0 hge, Nat.mod_eq_sub_mod hge]
        have e1 : idx + 10 * D + 10 * (i - D) = idx + 10 * i := by omega
        have e3 : pid + 1 + (i - D) / D = pid + ((i - D) / D + 1) := by ring
        rw [e1, e3]

/-- C7: a run with P participants and D days yields exactly P * D records
in each view, in participant-major day-minor order (the record at
position i belongs to participant i / D + 1 and day i % D + 1), and the
block view's column list drops every raw numeric and clock-formatted
sleep column and ends with the serialized sleep-block column. -/
theorem C7_views (p : GenParams) (stream : ℕ → ℚ) (P D : ℕ) :
    (generate_time_series_sleepdata p stream P D).length = P * D ∧
    (jsonblock_view p stream P D).length = P * D ∧
    (∀ i, i < P * D →
      ((generate_time_series_sleepdata p stream P D)[i]?).map
          DiaryRecord.pid = some (i / D + 1) ∧
      ((generate_time_series_sleepdata p stream P D)[i]?).map
          DiaryRecord.day_index = some (i % D + 1)) ∧
    cols_order.getLast? = some "Sleep_JSON" ∧
    (∀ c ∈ sleep_vars, c ∉ cols_order) := by
  refine ⟨genParticipants_length p stream D P 1 0, ?_, ?_, by decide,
    by decide⟩
  · rw [jsonblock_view, List.length_map]
    exact genParticipants_length p stream D P 1 0
  · intro i hi
    rw [generate_time_series_sleepdata,
      genParticipants_getElem p stream D P 1 0 i hi]
    constructor
    · exact congrArg some (Nat.add_comm 1 (i / D))
    · exact congrArg some (Nat.add_comm 1 (i % D))

/-- C7 witness: with 2 participants and 3 days there are exactly 6
records, and the record at position 4 belongs to participant 2, day 2,
via the views theorem at those concrete counts. -/
theorem C7_views_witness :
    (generate_time_series_sleepdata zeroParams zeroStream 2 3).length = 6 ∧
    ((generate_time_series_sleepdata zeroParams zeroStream 2 3)[4]?).map
        DiaryRecord.pid = some 2 ∧
    ((generate_time_series_sleepdata zeroParams zeroStream 2 3)[4]?).map
        DiaryRecord.day_index = some 2 := by
  have h := C7_views zeroParams zeroStream 2 3
  have h4 := h.2.2.1 4 (by norm_num)
  refine ⟨by simpa using h.1, ?_, ?_⟩
  · have e : (4 : ℕ) / 3 + 1 = 2 := by norm_num
    rw [← e]
    exact h4.1
  · have e : (4 : ℕ) % 3 + 1 = 2 := by norm_num
    rw [← e]
    exact h4.2

/-- C8: generation is deterministic.  The seeded draw stream is a
function of the seed and the normalized parameter table, so two runs with
the same parameters and the same stream produce identical record tables,
for both generator variants and both output views. -/
theorem C8_determinism (p1 p2 : GenParams) (s1 s2 : ℕ → ℚ) (P D : ℕ)
    (hp : p1 = p2) (hs : ∀ n, s1 n = s2 n) :
    generate_time_series_sleepdata p1 s1 P D
        = generate_time_series_sleepdata p2 s2 P D ∧
    jsonblock_view p1 s1 P D = jsonblock_view p2 s2 P D ∧
    generate_time_series_sleepdata_basic p1 s1 P D
        = generate_time_series_sleepdata_basic p2 s2 P D := by
  have hfun : s1 = s2 := funext hs
  subst hp
  subst hfun
  exact ⟨rfl, rfl, rfl⟩

/-- C8 witness: the determinism theorem applied at a concrete seed
stream, parameter table and run size. -/
theorem C8_determinism_witness :
    generate_time_series_sleepdata zeroParams zeroStream 1 2
        = generate_time_series_sleepdata zeroParams zeroStream 1 2 :=
  (C8_determinism zeroParams zeroParams zeroStream zeroStream 1 2 rfl
    (fun _ => rfl)).1
